import Mathlib

/-!
Verification of the gestures_recognition repository core: the SHTP framing
layer (two C++ implementations of ShtpI2cTransport), the SH-2 report codec
(sh2_parser.cpp), and the gesture-direction detector (gesture_dir.hpp).

Bytes are modelled as natural numbers; every place the C++ narrows to
uint8_t or uint16_t the model reduces modulo 256 or 65536 explicitly.
Real-valued sensor arithmetic (C++ float and double) is modelled exactly
over the rationals: every value the decoder produces is an int16 divided
by a power of two, which binary32 represents exactly, and the detector
compares Euclidean norms only against nonnegative thresholds, so norm
comparisons are carried out on squares, which agrees with the real-number
semantics of the source for the nonnegative thresholds in use.
-/

namespace GestRec

/-- Error codes from struct ShtpError in include/bno/shtp.hpp.  The member
`code` of kind None is rendered `ok` here. -/
inductive ShtpErrCode where
  | ok
  | ioError
  | timeout
  | oversizeFrame
  | invalidHeader
  | deviceReset
  | notOpen
  | unknownErr
deriving DecidableEq, Repr

/-- SHTP frame header from include/bno/shtp.hpp: total length (including the
4 header octets), channel octet, sequence octet. -/
structure ShtpHeader where
  length_le : Nat
  channel : Nat
  sequence : Nat
deriving DecidableEq, Repr

/-- One SHTP frame: header plus payload octets (payload excludes the header). -/
structure ShtpFrame where
  header : ShtpHeader
  payload : List Nat
deriving DecidableEq, Repr

/-- SHTP_MAX_FRAME from include/bno/shtp.hpp. -/
def SHTP_MAX_FRAME : Nat := 512

namespace ShtpMain

/-- Outcome of one ShtpI2cTransport::read_exact call in
src/imu/src/shtp_linux_i2c.cpp: timeout, I/O error, or success (in which
case exactly the requested number of octets was delivered). -/
inductive RexOut where
  | timeout
  | ioErr
  | ok
deriving DecidableEq, Repr

/-- The bus as seen by one read_frame call of shtp_linux_i2c.cpp: the
outcome and delivered octets of the header read_exact and of the payload
read_exact. -/
structure BusIn where
  hOut : RexOut
  hBytes : List Nat
  pOut : RexOut
  pBytes : List Nat
deriving DecidableEq, Repr

/-- ShtpI2cTransport::read_frame from src/imu/src/shtp_linux_i2c.cpp
(lines 123-154).  It reads 4 header octets, computes
length_le = rx[0] | (rx[1] << 8) with NO masking of the continuation bit,
rejects length_le < 4 or length_le > max_frame_size_ with code
OversizeFrame, then reads length_le - 4 payload octets. -/
def read_frame (maxFrame : Nat) (b : BusIn) : ShtpErrCode × Option ShtpFrame :=
  match b.hOut with
  | .timeout => (.timeout, none)
  | .ioErr => (.ioError, none)
  | .ok =>
    let b0 := b.hBytes.getD 0 0 % 256
    let b1 := b.hBytes.getD 1 0 % 256
    let b2 := b.hBytes.getD 2 0 % 256
    let b3 := b.hBytes.getD 3 0 % 256
    let len := b0 + b1 * 256
    if len < 4 ∨ maxFrame < len then (.oversizeFrame, none)
    else
      match b.pOut with
      | .timeout => (.timeout, none)
      | .ioErr => (.ioError, none)
      | .ok => (.ok, some ⟨⟨len, b2, b3⟩, b.pBytes.take (len - 4)⟩)

/-- ShtpI2cTransport::write_frame from src/imu/src/shtp_linux_i2c.cpp
(lines 156-185).  State is the per-channel sequence table
sequence_per_channel_, modelled as a function from the channel octet to the
counter value.  Returns the new table, the transmitted octets (none when
nothing was transmitted), and the error code.  The oversize check happens
before any state change. -/
def write_frame (maxFrame : Nat) (tbl : Nat → Nat) (channel : Nat)
    (payload : List Nat) : (Nat → Nat) × Option (List Nat) × ShtpErrCode :=
  if maxFrame < payload.length + 4 then (tbl, none, .oversizeFrame)
  else
    let total := (payload.length + 4) % 65536
    let ch := channel % 256
    let seq := tbl ch % 256
    let hdr := [total % 256, total / 256 % 256, ch, seq]
    (fun c => if c = ch then (tbl ch + 1) % 256 else tbl c,
     some (hdr ++ payload), .ok)

/-- A run of write_frame calls on one channel: threads the sequence table
through the calls and collects the emitted sequence octets (octet 3 of each
transmitted frame). -/
def write_run (maxFrame : Nat) (tbl : Nat → Nat) (channel : Nat) :
    List (List Nat) → (Nat → Nat) × List Nat
  | [] => (tbl, [])
  | p :: ps =>
    let r := write_frame maxFrame tbl channel p
    let rest := write_run maxFrame r.1 channel ps
    (rest.1,
     (match r.2.1 with
      | some bytes => [bytes.getD 3 0]
      | none => []) ++ rest.2)

end ShtpMain

namespace ShtpAlt

/-- Outcome of the poll() call in the alternate transport
src/unnamed/part_001. -/
inductive PollOut where
  | timeout
  | pollErr
  | ready
deriving DecidableEq, Repr

/-- Outcome of one raw ::read call in src/unnamed/part_001: an I/O error or
the octets actually delivered (the short-read cases are the lists of the
wrong length). -/
inductive RawRead where
  | rdErr
  | rdBytes (bs : List Nat)
deriving DecidableEq, Repr

/-- The bus as seen by one read_frame call of src/unnamed/part_001: the
poll outcome, the 4-octet header read, and the whole-frame re-read. -/
structure BusIn where
  pollOut : PollOut
  rd1 : RawRead
  rd2 : RawRead
deriving DecidableEq, Repr

/-- ShtpI2cTransport::read_frame from src/unnamed/part_001 (lines 77-184).
After poll(), it reads 4 header octets, masks the continuation bit
(length &= 0x7FFF), rejects length < 4 or length > max_frame_size_ with
code OversizeFrame, re-reads the whole frame of length octets, and emits
InvalidHeader when the re-read length field disagrees with the header. -/
def read_frame (maxFrame : Nat) (b : BusIn) : ShtpErrCode × Option ShtpFrame :=
  match b.pollOut with
  | .timeout => (.ok, none)
  | .pollErr => (.ioError, none)
  | .ready =>
    match b.rd1 with
    | .rdErr => (.ioError, none)
    | .rdBytes hs =>
      if hs.length = 0 then (.ok, none)
      else if hs.length ≠ 4 then (.ioError, none)
      else
        let raw := hs.getD 0 0 % 256 + hs.getD 1 0 % 256 * 256
        let len := raw % 32768
        if len < 4 ∨ maxFrame < len then (.oversizeFrame, none)
        else
          match b.rd2 with
          | .rdErr => (.ioError, none)
          | .rdBytes bs =>
            if bs.length ≠ len then (.ioError, none)
            else
              let raw2 := bs.getD 0 0 % 256 + bs.getD 1 0 % 256 * 256
              let len2 := raw2 % 32768
              if len2 ≠ len then (.invalidHeader, none)
              else
                (.ok, some ⟨⟨len2, bs.getD 2 0 % 256, bs.getD 3 0 % 256⟩,
                            (bs.drop 4).take (len2 - 4)⟩)

end ShtpAlt

/-! The SH-2 report codec from src/imu/src/sh2_parser.cpp and
include/bno/sh2_reports.hpp. -/

/-- Sh2Accuracy from include/bno/sh2_reports.hpp. -/
inductive Sh2Accuracy where
  | unreliable
  | low
  | medium
  | high
deriving DecidableEq, Repr

/-- Helper decode_accuracy from src/imu/src/sh2_parser.cpp: the low two
bits of the status octet. -/
def decode_accuracy (status : Nat) : Sh2Accuracy :=
  if status % 4 = 1 then .low
  else if status % 4 = 2 then .medium
  else if status % 4 = 3 then .high
  else .unreliable

/-- Vec3f from include/bno/sh2_reports.hpp, with exact rational components
in place of binary32 (every decoded component is an int16 over a power of
two, which binary32 represents exactly). -/
structure Vec3f where
  x : ℚ
  y : ℚ
  z : ℚ
deriving DecidableEq, Repr

/-- Quaternion from include/bno/sh2_reports.hpp (field order real, i, j, k). -/
structure Quaternion where
  real : ℚ
  i : ℚ
  j : ℚ
  k : ℚ
deriving DecidableEq, Repr

/-- Helper le_i16 from src/imu/src/sh2_parser.cpp: two octets, little
endian, reinterpreted as a signed 16-bit value. -/
def le_i16 (b0 b1 : Nat) : ℤ :=
  let u := b0 % 256 + b1 % 256 * 256
  if u < 32768 then (u : ℤ) else (u : ℤ) - 65536

/-- Sh2SensorEvent from include/bno/sh2_reports.hpp.  sensor_id is kept as
the numeric report id. -/
structure Sh2SensorEvent where
  sensor_id : Nat
  timestamp_us : Nat
  accuracy : Sh2Accuracy
  accel : Option Vec3f
  gyro : Option Vec3f
  game_quat : Option Quaternion
  activity_label : Option String
  activity_confidence : Option ℤ
  steps_total : Option Nat
  step_event : Option Bool
  stability_state : Option String
deriving DecidableEq, Repr

/-- An event with every optional field empty; the parser fills in the
fields it sets, mirroring the zero-initialised Sh2SensorEvent evt{} of the
C++ source. -/
def emptyEvent : Sh2SensorEvent :=
  ⟨0, 0, .unreliable, none, none, none, none, none, none, none, none⟩

/-- parse_sh2_sensor_event from src/imu/src/sh2_parser.cpp (lines 29-114).
Input is the octet list of one report record. -/
def parse_sh2_sensor_event (data : List Nat) : Option Sh2SensorEvent :=
  if data.length < 4 then none
  else
    let report_id := data.getD 0 0 % 256
    let acc := decode_accuracy (data.getD 2 0 % 256)
    if report_id = 1 then
      if data.length < 10 then none
      else some { emptyEvent with
        sensor_id := 1
        accuracy := acc
        accel := some ⟨(le_i16 (data.getD 4 0) (data.getD 5 0) : ℚ) / 256,
                       (le_i16 (data.getD 6 0) (data.getD 7 0) : ℚ) / 256,
                       (le_i16 (data.getD 8 0) (data.getD 9 0) : ℚ) / 256⟩ }
    else if report_id = 4 then
      if data.length < 10 then none
      else some { emptyEvent with
        sensor_id := 4
        accuracy := acc
        accel := some ⟨(le_i16 (data.getD 4 0) (data.getD 5 0) : ℚ) / 256,
                       (le_i16 (data.getD 6 0) (data.getD 7 0) : ℚ) / 256,
                       (le_i16 (data.getD 8 0) (data.getD 9 0) : ℚ) / 256⟩ }
    else if report_id = 2 then
      if data.length < 10 then none
      else some { emptyEvent with
        sensor_id := 2
        accuracy := acc
        gyro := some ⟨(le_i16 (data.getD 4 0) (data.getD 5 0) : ℚ) / 512,
                      (le_i16 (data.getD 6 0) (data.getD 7 0) : ℚ) / 512,
                      (le_i16 (data.getD 8 0) (data.getD 9 0) : ℚ) / 512⟩ }
    else if report_id = 8 then
      if data.length < 12 then none
      else some { emptyEvent with
        sensor_id := 8
        accuracy := acc
        game_quat := some ⟨(le_i16 (data.getD 10 0) (data.getD 11 0) : ℚ) / 16384,
                           (le_i16 (data.getD 4 0) (data.getD 5 0) : ℚ) / 16384,
                           (le_i16 (data.getD 6 0) (data.getD 7 0) : ℚ) / 16384,
                           (le_i16 (data.getD 8 0) (data.getD 9 0) : ℚ) / 16384⟩ }
    else none

/-- build_enable_report_command from src/imu/src/sh2_parser.cpp
(lines 116-156): the 17-octet Set Feature Command, or none when the output
buffer is too small.  interval_us is a uint32 in the source, hence the
reduction modulo 2^32. -/
def build_enable_report_command (sensor interval_us maxLen : Nat) :
    Option (List Nat) :=
  if maxLen < 17 then none
  else
    let iv := interval_us % 4294967296
    some [0xFD, sensor % 256, 0, 0, 0,
          iv % 256, iv / 256 % 256, iv / 65536 % 256, iv / 16777216 % 256,
          0, 0, 0, 0, 0, 0, 0, 0]

/-- The helper enable_report from src/imu/src/imu_dir.cpp (lines 66-90):
it computes interval_us = 1000000 / hz, builds the Set Feature payload
with a 32-octet buffer, and writes it with write_frame on
ShtpChannel::Control, whose numeric value in include/bno/shtp.hpp is 1. -/
def enable_report (tbl : Nat → Nat) (sensor hz : Nat) :
    (Nat → Nat) × Option (List Nat) × ShtpErrCode :=
  match build_enable_report_command sensor (1000000 / hz) 32 with
  | none => (tbl, none, .unknownErr)
  | some payload => ShtpMain.write_frame 512 tbl 1 payload

/-- sh2_set_feature from src/unnamed/part_002 (lines 91-127): the payload
it builds.  The source narrows interval_us to uint8 before shifting, so
octet 4 carries interval_us modulo 256 and octet 5 is always zero; it also
writes on ShtpChannel::Control (channel octet 1). -/
def sh2_set_feature_payload (sensor interval_us : Nat) : List Nat :=
  [0xFD, sensor % 256, 0, 0,
   interval_us % 256, interval_us % 256 / 256 % 256, 0, 0,
   0, 0, 0, 0, 0, 0, 0, 0, 0]

/-! The gesture-direction detector from include/bno/gesture_dir.hpp (the
second segment of src/imu/src/shtp_linux_i2c.cpp).  The C++ double
arithmetic is modelled exactly over the rationals; the three comparisons
involving the Euclidean norm (peak selection, the min_peak_magnitude
guard, the min_dyn_threshold filter) are carried out on squared norms,
which agrees with the real-number comparisons of the source whenever the
thresholds are nonnegative, as all deployed configurations are. -/

/-- Vec3 from include/bno/gesture_dir.hpp (double components in C++). -/
structure Vec3 where
  x : ℚ
  y : ℚ
  z : ℚ
deriving DecidableEq, Repr

/-- Quat from include/bno/gesture_dir.hpp (field order w, x, y, z). -/
structure Quat where
  w : ℚ
  x : ℚ
  y : ℚ
  z : ℚ
deriving DecidableEq, Repr

/-- rotate_vector_by_quat from include/bno/gesture_dir.hpp: rotation of v
by the unit quaternion q, computed as v + w*t + q_vec × t with
t = 2 (q_vec × v). -/
def rotate_vector_by_quat (v : Vec3) (q : Quat) : Vec3 :=
  let tx := 2 * (q.y * v.z - q.z * v.y)
  let ty := 2 * (q.z * v.x - q.x * v.z)
  let tz := 2 * (q.x * v.y - q.y * v.x)
  ⟨v.x + q.w * tx + (q.y * tz - q.z * ty),
   v.y + q.w * ty + (q.z * tx - q.x * tz),
   v.z + q.w * tz + (q.x * ty - q.y * tx)⟩

/-- Squared Euclidean norm; the source's norm is its square root. -/
def normSq (v : Vec3) : ℚ := v.x * v.x + v.y * v.y + v.z * v.z

/-- Componentwise difference a - b. -/
def vsub (a b : Vec3) : Vec3 := ⟨a.x - b.x, a.y - b.y, a.z - b.z⟩

/-- GestureSample from include/bno/gesture_dir.hpp. -/
structure GestureSample where
  t : ℚ
  accel : Vec3
  quat : Quat
deriving DecidableEq, Repr

/-- Default sample used only to totalise list indexing at indices that are
proved in range. -/
def dfltSample : GestureSample := ⟨0, ⟨0, 0, 0⟩, ⟨1, 0, 0, 0⟩⟩

/-- GestureResult from include/bno/gesture_dir.hpp. -/
structure GestureResult where
  t_center : ℚ
  duration : ℚ
  delta_v_world : Vec3
  baseline_world : Vec3
  axis : Char
  sign : Char
  label : String
deriving DecidableEq, Repr

/-- GestureDirectionDetector::axis_sign_to_label from
include/bno/gesture_dir.hpp (lines 670-682 of the concatenated file). -/
def axis_sign_to_label (axis sign : Char) : String :=
  if axis = 'X' then (if sign = '+' then "UP" else "DOWN")
  else if axis = 'Z' then (if sign = '+' then "RIGHT" else "LEFT")
  else if axis = 'Y' then (if sign = '+' then "FORWARD" else "BACKWARD")
  else "UNKNOWN"

/-- GestureDirectionDetector::Config from include/bno/gesture_dir.hpp. -/
structure Config where
  baseline_window_s : ℚ
  half_window_s : ℚ
  min_dyn_threshold : ℚ
  min_peak_magnitude : ℚ
  min_gesture_interval : ℚ
deriving DecidableEq, Repr

/-- The mutable fields of GestureDirectionDetector.  pending_result is not
carried: emissions are returned by add_sample instead, which is what the
two call sites do (they poll after every add_sample). -/
structure DetectorState where
  cfg : Config
  buffer : List GestureSample
  a0_world : Vec3
  baseline_computed : Bool
  t_baseline_end : ℚ
  last_gesture_time : ℚ
deriving DecidableEq, Repr

/-- The peak-search loop of maybe_detect_gesture: scan the buffer from
index i, skipping samples before t_baseline_end, tracking the largest
squared dynamic magnitude and its index.  The accumulator starts at
(-1, 0) exactly as max_mag = -1.0, i_peak = 0 in the source. -/
def findPeakAux (a0 : Vec3) (tbe : ℚ) :
    List GestureSample → Nat → ℚ × Nat → ℚ × Nat
  | [], _, acc => acc
  | s :: rest, i, (m, ip) =>
    if s.t < tbe then findPeakAux a0 tbe rest (i + 1) (m, ip)
    else
      let mag := normSq (vsub s.accel a0)
      if m < mag then findPeakAux a0 tbe rest (i + 1) (mag, i)
      else findPeakAux a0 tbe rest (i + 1) (m, ip)

/-- The integration loop of maybe_detect_gesture over consecutive pairs of
window samples: skip nonpositive dt and samples whose dynamic magnitude is
below min_dyn_threshold, otherwise accumulate dyn * dt. -/
def integrateWindow (cfg : Config) (a0 : Vec3) (window : List GestureSample) :
    Vec3 :=
  (window.zip window.tail).foldl
    (fun dv pr =>
      let dt := pr.2.t - pr.1.t
      if dt ≤ 0 then dv
      else
        let dyn := vsub pr.2.accel a0
        if normSq dyn < cfg.min_dyn_threshold * cfg.min_dyn_threshold then dv
        else ⟨dv.x + dyn.x * dt, dv.y + dyn.y * dt, dv.z + dyn.z * dt⟩)
    ⟨0, 0, 0⟩

/-- The axis-selection chain of maybe_detect_gesture: the axis character
and the signed component axis_val, chosen by the source's if-else chain on
the componentwise absolute values of dv. -/
def select_axis (dv : Vec3) : Char × ℚ :=
  let absx := |dv.x|
  let absy := |dv.y|
  let absz := |dv.z|
  if absx ≥ absy ∧ absx ≥ absz then ('X', dv.x)
  else if absy ≥ absx ∧ absy ≥ absz then ('Y', dv.y)
  else ('Z', dv.z)

/-- The sign assignment of maybe_detect_gesture: '+' when the selected
component is nonnegative, '-' otherwise. -/
def select_sign (axis_val : ℚ) : Char := if axis_val ≥ 0 then '+' else '-'

/-- GestureDirectionDetector::maybe_detect_gesture (lines 551-668 of the
concatenated shtp_linux_i2c.cpp).  Returns the emitted result together
with t_now (the time of the newest buffered sample, which the source
stores into last_gesture_time), or none when no gesture is emitted. -/
def maybe_detect_gesture (cfg : Config) (buf : List GestureSample) (a0 : Vec3)
    (tbe lastGesture : ℚ) : Option (GestureResult × ℚ) :=
  if buf.length < 3 then none
  else
    let t_now := (buf.getD (buf.length - 1) dfltSample).t
    if t_now - lastGesture < cfg.min_gesture_interval then none
    else
      let pk := findPeakAux a0 tbe buf 0 (-1, 0)
      if pk.1 < cfg.min_peak_magnitude * cfg.min_peak_magnitude then none
      else
        let t_peak := (buf.getD pk.2 dfltSample).t
        let t_start := t_peak - cfg.half_window_s
        let t_end := t_peak + cfg.half_window_s
        let window := (buf.dropWhile (fun s => s.t < t_start)).takeWhile
          (fun s => s.t ≤ t_end)
        if window.length ≤ 2 then none
        else
          let duration := (window.getD (window.length - 1) dfltSample).t -
            (window.getD 0 dfltSample).t
          let dv := integrateWindow cfg a0 window
          let sel := select_axis dv
          let sign := select_sign sel.2
          let mag_axis := max |dv.x| (max |dv.y| |dv.z|)
          if mag_axis < 1 / 2 then none
          else
            some (⟨t_peak, duration, dv, a0, sel.1, sign,
                   axis_sign_to_label sel.1 sign⟩, t_now)

/-- GestureDirectionDetector::compute_baseline_if_ready (lines 518-549 of
the concatenated shtp_linux_i2c.cpp): mean world acceleration over the
samples within baseline_window_s of the oldest buffered sample, requiring
at least 3 of them. -/
def compute_baseline_if_ready (st : DetectorState) : DetectorState :=
  match st.buffer with
  | [] => st
  | s0 :: _ =>
    let t0 := s0.t
    let w := st.cfg.baseline_window_s
    let init := st.buffer.takeWhile (fun s => s.t - t0 ≤ w)
    if init.length < 3 then st
    else
      { st with
        a0_world := ⟨((init.map fun s => s.accel.x).sum) / init.length,
                     ((init.map fun s => s.accel.y).sum) / init.length,
                     ((init.map fun s => s.accel.z).sum) / init.length⟩
        baseline_computed := true
        t_baseline_end := t0 + w }

/-- The first half of GestureDirectionDetector::add_sample (lines 474-494
of the concatenated shtp_linux_i2c.cpp): rotate into the world frame,
push, expire samples older than 2.5 * half_window_s, and compute the
baseline if it is not established yet. -/
def add_sample_pre (st : DetectorState) (t : ℚ) (accel_sensor : Vec3)
    (quat : Quat) : DetectorState :=
  let aw := rotate_vector_by_quat accel_sensor quat
  let buf1 := st.buffer ++ [⟨t, aw, quat⟩]
  let span := 5 / 2 * st.cfg.half_window_s
  let buf2 := buf1.dropWhile fun s => span < t - s.t
  let st1 := { st with buffer := buf2 }
  if st1.baseline_computed then st1 else compute_baseline_if_ready st1

/-- GestureDirectionDetector::add_sample: the buffer and baseline update
followed, once the baseline is established, by the detection step; an
emitted result is returned together with the t_now recorded into
last_gesture_time. -/
def add_sample (st : DetectorState) (t : ℚ) (accel_sensor : Vec3) (quat : Quat) :
    DetectorState × Option (GestureResult × ℚ) :=
  let st2 := add_sample_pre st t accel_sensor quat
  if st2.baseline_computed then
    match maybe_detect_gesture st2.cfg st2.buffer st2.a0_world
        st2.t_baseline_end st2.last_gesture_time with
    | none => (st2, none)
    | some (res, tn) => ({ st2 with last_gesture_time := tn }, some (res, tn))
  else (st2, none)

/-- Feed a list of (t, sensor-frame accel, quaternion) samples to the
detector, collecting every emitted gesture result paired with the t_now at
which it was emitted. -/
def runDetector : DetectorState → List (ℚ × Vec3 × Quat) →
    DetectorState × List (GestureResult × ℚ)
  | st, [] => (st, [])
  | st, (t, a, q) :: rest =>
    let r := add_sample st t a q
    let rr := runDetector r.1 rest
    (rr.1,
     (match r.2 with
      | some e => [e]
      | none => []) ++ rr.2)

/-! Theorems for the claims. -/

/-- C1: the frozen claim asserts that read_frame masks the continuation
bit before interpreting the length, so that header [0x14, 0x80, 0x02,
0x00] parses to length 20, channel 2, and a 16-octet payload.  The
read_frame of src/imu/src/shtp_linux_i2c.cpp does not mask: it computes
the raw 16-bit length 0x8014 = 32788, compares it against MAX_FRAME = 512,
and rejects the frame with OversizeFrame, even though the low 15 bits
encode the valid length 20. -/
theorem c1_counterexample_main_does_not_mask :
    ShtpMain.read_frame 512
        ⟨.ok, [0x14, 0x80, 0x02, 0x00], .ok, List.replicate 16 7⟩
      = (.oversizeFrame, none) ∧
    (0x14 + 0x80 * 256) % 32768 = 20 := by
  decide

/-- C1 (amended): the read_frame of src/unnamed/part_001 masks the
continuation bit (length &= 0x7FFF) before interpreting the length: every
4-octet header whose masked length L satisfies 4 <= L <= 512, followed by
a frame re-read of the same header and L - 4 payload octets, parses to a
frame with length L, the channel octet, and exactly those payload octets;
the shtp_linux_i2c.cpp read_frame instead rejects every header with bit 15
set as OversizeFrame. -/
theorem c1_alt_read_frame_masks_continuation_bit
    (h0 h1 h2 h3 : Nat) (payload : List Nat)
    (hlo : 4 ≤ (h0 % 256 + h1 % 256 * 256) % 32768)
    (hhi : (h0 % 256 + h1 % 256 * 256) % 32768 ≤ 512)
    (hp : payload.length = (h0 % 256 + h1 % 256 * 256) % 32768 - 4) :
    ShtpAlt.read_frame 512
        ⟨.ready, .rdBytes [h0, h1, h2, h3],
         .rdBytes ([h0, h1, h2, h3] ++ payload)⟩
      = (.ok, some ⟨⟨(h0 % 256 + h1 % 256 * 256) % 32768, h2 % 256, h3 % 256⟩,
                    payload⟩) := by
  simp only [ShtpAlt.read_frame, List.cons_append, List.nil_append]
  simp only [List.length_cons, List.length_nil, List.getD_cons_zero,
    List.getD_cons_succ]
  rw [if_neg (by omega), if_neg (by omega), if_neg (by omega),
    if_neg (by simp; omega), if_neg (by omega)]
  have hdr : List.drop 4 (h0 :: h1 :: h2 :: h3 :: payload) = payload := rfl
  rw [hdr, ← hp, List.take_length]

/-- C1 witness: the claim's own example header through the part_001
read_frame. -/
theorem c1_witness_example_header :
    ShtpAlt.read_frame 512
        ⟨.ready, .rdBytes [0x14, 0x80, 0x02, 0x00],
         .rdBytes ([0x14, 0x80, 0x02, 0x00] ++ List.replicate 16 7)⟩
      = (.ok, some ⟨⟨(0x14 % 256 + 0x80 % 256 * 256) % 32768, 0x02 % 256,
                     0x00 % 256⟩, List.replicate 16 7⟩) :=
  c1_alt_read_frame_masks_continuation_bit 0x14 0x80 0x02 0x00
    (List.replicate 16 7) (by decide) (by decide) (by decide)

/-- C2: the frozen claim asserts that a parsed length below 4 fails with
InvalidHeader.  Both read_frame implementations classify it as
OversizeFrame: the header [0x02, 0x00, 0x00, 0x00] (length 2) yields
error code OversizeFrame, which differs from InvalidHeader. -/
theorem c2_counterexample_short_length_is_oversize :
    ShtpAlt.read_frame 512 ⟨.ready, .rdBytes [2, 0, 0, 0], .rdBytes []⟩
      = (.oversizeFrame, none) ∧
    ShtpMain.read_frame 512 ⟨.ok, [2, 0, 0, 0], .ok, []⟩
      = (.oversizeFrame, none) ∧
    ShtpErrCode.oversizeFrame ≠ ShtpErrCode.invalidHeader := by
  decide

/-- C2 (amended), on the part_001 read_frame: a poll timeout yields no
frame and no recorded error; a parsed (masked) length below 4 or above
MAX_FRAME yields OversizeFrame, and OversizeFrame arises only that way
(InvalidHeader is reserved for a length mismatch between the header read
and the frame re-read); poll and read I/O faults propagate as the bus
error code IoError. -/
theorem c2_alt_read_frame_error_taxonomy :
    (∀ rd1 rd2, ShtpAlt.read_frame 512 ⟨.timeout, rd1, rd2⟩ = (.ok, none)) ∧
    (∀ hs rd2, hs.length = 4 →
      ((hs.getD 0 0 % 256 + hs.getD 1 0 % 256 * 256) % 32768 < 4 ∨
        512 < (hs.getD 0 0 % 256 + hs.getD 1 0 % 256 * 256) % 32768) →
      ShtpAlt.read_frame 512 ⟨.ready, .rdBytes hs, rd2⟩
        = (.oversizeFrame, none)) ∧
    (∀ b, (ShtpAlt.read_frame 512 b).1 = .oversizeFrame →
      ∃ hs, b.rd1 = .rdBytes hs ∧ hs.length = 4 ∧
        ((hs.getD 0 0 % 256 + hs.getD 1 0 % 256 * 256) % 32768 < 4 ∨
          512 < (hs.getD 0 0 % 256 + hs.getD 1 0 % 256 * 256) % 32768)) ∧
    (∀ rd1 rd2, ShtpAlt.read_frame 512 ⟨.pollErr, rd1, rd2⟩
      = (.ioError, none)) ∧
    (∀ rd2, ShtpAlt.read_frame 512 ⟨.ready, .rdErr, rd2⟩
      = (.ioError, none)) := by
  refine ⟨fun rd1 rd2 => rfl, ?_, ?_, fun rd1 rd2 => rfl, fun rd2 => rfl⟩
  · intro hs rd2 hlen hbad
    simp only [ShtpAlt.read_frame]
    rw [if_neg (by omega), if_neg (by omega), if_pos (by omega)]
  · intro b h
    rcases b with ⟨pollOut, rd1, rd2⟩
    cases pollOut
    · simp [ShtpAlt.read_frame] at h
    · simp [ShtpAlt.read_frame] at h
    · cases rd1 with
      | rdErr => simp [ShtpAlt.read_frame] at h
      | rdBytes hs =>
        refine ⟨hs, rfl, ?_⟩
        simp only [ShtpAlt.read_frame] at h
        by_cases h0 : hs.length = 0
        · rw [if_pos h0] at h; simp at h
        rw [if_neg h0] at h
        by_cases h4 : hs.length ≠ 4
        · rw [if_pos h4] at h; simp at h
        rw [if_neg h4] at h
        refine ⟨by omega, ?_⟩
        by_cases hbad :
            (hs.getD 0 0 % 256 + hs.getD 1 0 % 256 * 256) % 32768 < 4 ∨
              512 < (hs.getD 0 0 % 256 + hs.getD 1 0 % 256 * 256) % 32768
        · exact hbad
        rw [if_neg hbad] at h
        exfalso
        cases rd2 with
        | rdErr => simp at h
        | rdBytes bs =>
          dsimp only at h
          split_ifs at h

/-- C2 witness: the taxonomy theorem applied at concrete bus inputs: a
timeout, an over-long length (0x2000 = 8192 > 512), and the oversize
converse at the length-2 header. -/
theorem c2_witness_concrete_errors :
    ShtpAlt.read_frame 512 ⟨.timeout, .rdErr, .rdErr⟩ = (.ok, none) ∧
    ShtpAlt.read_frame 512 ⟨.ready, .rdBytes [0, 32, 0, 0], .rdErr⟩
      = (.oversizeFrame, none) ∧
    (∃ hs, (ShtpAlt.RawRead.rdBytes [2, 0, 0, 0]) = .rdBytes hs ∧
      hs.length = 4 ∧
      ((hs.getD 0 0 % 256 + hs.getD 1 0 % 256 * 256) % 32768 < 4 ∨
        512 < (hs.getD 0 0 % 256 + hs.getD 1 0 % 256 * 256) % 32768)) :=
  ⟨c2_alt_read_frame_error_taxonomy.1 .rdErr .rdErr,
   c2_alt_read_frame_error_taxonomy.2.1 [0, 32, 0, 0] .rdErr (by decide)
     (by decide),
   c2_alt_read_frame_error_taxonomy.2.2.1
     ⟨.ready, .rdBytes [2, 0, 0, 0], .rdErr⟩ (by decide)⟩

/-- C3: the frozen claim asserts the 17-octet Set Feature payload is
written on the hub-control channel, which the specification's channel
table numbers 2.  The code writes it with ShtpChannel::Control, whose
value in include/bno/shtp.hpp is 1: the transmitted frame built by
enable_report for sensor 0x04 at 100 Hz carries channel octet 1, not 2.
Moreover the alternate encoder sh2_set_feature of src/unnamed/part_002
does not realise the claimed layout either: for interval_us = 10000 it
stores octets 16 and 0 at offsets 4 and 5 (the interval truncated to
uint8), not the claimed 4-octet little-endian interval at offsets 5..8. -/
theorem c3_counterexample_channel_octet :
    ((enable_report (fun _ => 0) 4 100).2.1.getD []).getD 2 0 = 1 ∧
    (1 : Nat) ≠ 2 ∧
    sh2_set_feature_payload 4 10000 ≠
      [0xFD, 4, 0, 0, 0, 16, 39, 0, 0, 0, 0, 0, 0, 0, 0, 0, 0] ∧
    sh2_set_feature_payload 4 10000 =
      [0xFD, 4, 0, 0, 16, 0, 0, 0, 0, 0, 0, 0, 0, 0, 0, 0, 0] := by
  decide

/-- C3 (amended): for every sensor id below 256 and every interval below
2^32, build_enable_report_command produces exactly the 17 octets
[0xFD, sensorId, 0, 0, 0, interval_us as 4 octets little-endian at
offsets 5..8, then eight zero octets], and enable_report writes this
payload in a frame whose channel octet is 1 (the repository's
ShtpChannel::Control), not 2. -/
theorem c3_set_feature_layout (sensor iv : Nat) (hsid : sensor < 256)
    (hiv : iv < 4294967296) :
    build_enable_report_command sensor iv 32 =
      some [0xFD, sensor, 0, 0, 0, iv % 256, iv / 256 % 256, iv / 65536 % 256,
            iv / 16777216 % 256, 0, 0, 0, 0, 0, 0, 0, 0] ∧
    (∀ l, build_enable_report_command sensor iv 32 = some l →
      l.length = 17) ∧
    (∀ tbl hz, ∃ B, (enable_report tbl sensor hz).2.1 = some B ∧
      B.getD 2 0 = 1) := by
  have hmain : build_enable_report_command sensor iv 32 =
      some [0xFD, sensor, 0, 0, 0, iv % 256, iv / 256 % 256, iv / 65536 % 256,
            iv / 16777216 % 256, 0, 0, 0, 0, 0, 0, 0, 0] := by
    simp only [build_enable_report_command]
    rw [if_neg (by omega), Nat.mod_eq_of_lt hiv, Nat.mod_eq_of_lt hsid]
  refine ⟨hmain, ?_, ?_⟩
  · intro l hl
    rw [hmain] at hl
    cases hl
    rfl
  · intro tbl hz
    simp only [enable_report, build_enable_report_command]
    rw [if_neg (by omega)]
    simp only [ShtpMain.write_frame]
    rw [if_neg (by simp)]
    exact ⟨_, rfl, rfl⟩

/-- C3 witness: the layout theorem at sensor id 0x04 (linear
acceleration) and interval 10000 us (100 Hz). -/
theorem c3_witness_sensor4_100hz :
    build_enable_report_command 4 10000 32 =
      some [0xFD, 4, 0, 0, 0, 10000 % 256, 10000 / 256 % 256,
            10000 / 65536 % 256, 10000 / 16777216 % 256,
            0, 0, 0, 0, 0, 0, 0, 0] ∧
    (∃ B, (enable_report (fun _ => 3) 4 100).2.1 = some B ∧
      B.getD 2 0 = 1) :=
  ⟨(c3_set_feature_layout 4 10000 (by decide) (by decide)).1,
   (c3_set_feature_layout 4 10000 (by decide) (by decide)).2.2
     (fun _ => 3) 100⟩

/-- C4: round-trip through the shtp_linux_i2c.cpp framer: for every
channel octet and every payload of at most MAX_FRAME - 4 = 508 octets,
write_frame transmits the header [len_lo, len_hi, channel, sequence]
followed by the payload, and feeding that header and payload to
read_frame's header and payload reads yields a frame with the same
channel and the same payload octets. -/
theorem c4_write_read_roundtrip (tbl : Nat → Nat) (ch : Nat)
    (payload : List Nat) (hch : ch < 256) (hlen : payload.length ≤ 508) :
    (ShtpMain.write_frame 512 tbl ch payload).2.1 =
      some ([(payload.length + 4) % 256, (payload.length + 4) / 256 % 256,
             ch, tbl ch % 256] ++ payload) ∧
    ShtpMain.read_frame 512
        ⟨.ok, [(payload.length + 4) % 256, (payload.length + 4) / 256 % 256,
               ch, tbl ch % 256], .ok, payload⟩
      = (.ok, some ⟨⟨payload.length + 4, ch, tbl ch % 256⟩, payload⟩) := by
  constructor
  · simp only [ShtpMain.write_frame]
    rw [if_neg (by omega)]
    have h1 : (payload.length + 4) % 65536 = payload.length + 4 :=
      Nat.mod_eq_of_lt (by omega)
    simp only [h1, Nat.mod_eq_of_lt hch]
  · simp only [ShtpMain.read_frame, List.getD_cons_zero, List.getD_cons_succ]
    have hlen2 : (payload.length + 4) % 256 % 256 +
        (payload.length + 4) / 256 % 256 % 256 * 256 = payload.length + 4 := by
      omega
    rw [hlen2]
    rw [if_neg (by omega)]
    have hx : ch % 256 = ch := Nat.mod_eq_of_lt hch
    have hy : tbl ch % 256 % 256 = tbl ch % 256 := Nat.mod_mod_of_dvd _ dvd_rfl
    have hz : payload.take (payload.length + 4 - 4) = payload := by
      have : payload.length + 4 - 4 = payload.length := by omega
      rw [this, List.take_length]
    rw [hx, hy, hz]

/-- C4 witness: the round trip at channel 3 with a two-octet payload and
a sequence counter standing at 5. -/
theorem c4_witness_roundtrip :
    (ShtpMain.write_frame 512 (fun _ => 5) 3 [10, 20]).2.1 =
      some ([(([10, 20] : List Nat).length + 4) % 256,
             (([10, 20] : List Nat).length + 4) / 256 % 256,
             3, (fun _ => 5) 3 % 256] ++ [10, 20]) ∧
    ShtpMain.read_frame 512
        ⟨.ok, [(([10, 20] : List Nat).length + 4) % 256,
               (([10, 20] : List Nat).length + 4) / 256 % 256,
               3, (fun _ => 5) 3 % 256], .ok, [10, 20]⟩
      = (.ok, some ⟨⟨([10, 20] : List Nat).length + 4, 3,
                     (fun _ => 5) 3 % 256⟩, [10, 20]⟩) :=
  c4_write_read_roundtrip (fun _ => 5) 3 [10, 20] (by decide) (by decide)

/-- C5: on channel ch, a run of write_frame calls whose payloads all fit
emits the sequence octets s, s+1, s+2, ... modulo 256, where s is the
channel's counter before the first write, and the counters of all other
channels are left unchanged. -/
theorem c5_sequence_numbers (tbl : Nat → Nat) (ch : Nat)
    (ps : List (List Nat)) (hch : ch < 256)
    (hfit : ∀ p ∈ ps, p.length + 4 ≤ 512) :
    (ShtpMain.write_run 512 tbl ch ps).2 =
      (List.range ps.length).map (fun i => (tbl ch + i) % 256) ∧
    ∀ c, c ≠ ch → (ShtpMain.write_run 512 tbl ch ps).1 c = tbl c := by
  induction ps generalizing tbl with
  | nil => exact ⟨rfl, fun c _ => rfl⟩
  | cons p ps ih =>
    have hpfit : p.length + 4 ≤ 512 := hfit p (by simp)
    have hfit' : ∀ q ∈ ps, q.length + 4 ≤ 512 := fun q hq => hfit q (by simp [hq])
    have hchm : ch % 256 = ch := Nat.mod_eq_of_lt hch
    have hwf : ShtpMain.write_frame 512 tbl ch p =
        (fun c => if c = ch then (tbl ch + 1) % 256 else tbl c,
         some ([(p.length + 4) % 65536 % 256, (p.length + 4) % 65536 / 256 % 256,
                ch, tbl ch % 256] ++ p), .ok) := by
      simp only [ShtpMain.write_frame]
      rw [if_neg (by omega)]
      simp only [hchm]
    obtain ⟨ih1, ih2⟩ := ih (fun c => if c = ch then (tbl ch + 1) % 256
      else tbl c) hfit'
    constructor
    · simp only [ShtpMain.write_run, hwf]
      rw [ih1]
      have hgd : ([(p.length + 4) % 65536 % 256, (p.length + 4) % 65536 / 256 % 256,
          ch, tbl ch % 256] ++ p).getD 3 0 = tbl ch % 256 := rfl
      rw [hgd]
      simp only [List.length_cons, List.range_succ_eq_map, List.map_cons,
        List.map_map, eq_self_iff_true, if_true, List.singleton_append]
      refine congrArg₂ _ (by simp) ?_
      refine List.map_congr_left fun i _ => ?_
      simp only [Function.comp_apply]
      rw [Nat.mod_add_mod]
      congr 1
      omega
    · intro c hc
      simp only [ShtpMain.write_run, hwf]
      rw [ih2 c hc]
      simp [hc]

/-- C5 witness: three writes on channel 2 from a table standing at 250
everywhere emit 250, 251, 252, and channel 3's counter stays at 250. -/
theorem c5_witness_three_writes :
    (ShtpMain.write_run 512 (fun _ => 250) 2 [[], [9], []]).2 =
      (List.range ([[], [9], []] : List (List Nat)).length).map
        (fun i => ((fun _ => 250) 2 + i) % 256) ∧
    (ShtpMain.write_run 512 (fun _ => 250) 2 [[], [9], []]).1 3 = 250 :=
  ⟨(c5_sequence_numbers (fun _ => 250) 2 [[], [9], []] (by decide)
      (by decide)).1,
   (c5_sequence_numbers (fun _ => 250) 2 [[], [9], []] (by decide)
      (by decide)).2 3 (by decide)⟩

/-- C9: calling write_frame with a payload longer than
max_frame_size - 4 = 508 octets fails with OversizeFrame and leaves the
transport state unchanged: the sequence table is returned untouched and
nothing is transmitted (the oversize check precedes every state change
in the source). -/
theorem c9_write_frame_oversize_atomic (tbl : Nat → Nat) (ch : Nat)
    (payload : List Nat) (h : 508 < payload.length) :
    ShtpMain.write_frame 512 tbl ch payload = (tbl, none, .oversizeFrame) := by
  simp only [ShtpMain.write_frame]
  rw [if_pos (by omega)]

/-- C9 witness: a 509-octet payload on channel 2. -/
theorem c9_witness_509_octets :
    ShtpMain.write_frame 512 (fun _ => 7) 2 (List.replicate 509 0) =
      ((fun _ => 7), none, .oversizeFrame) :=
  c9_write_frame_oversize_atomic (fun _ => 7) 2 (List.replicate 509 0)
    (by rw [List.length_replicate]; omega)

/-- Helper for C6: decode_accuracy only looks at the low two bits, so a
prior reduction modulo 256 does not change it. -/
theorem decode_accuracy_mod256 (n : Nat) :
    decode_accuracy (n % 256) = decode_accuracy n := by
  have h : n % 256 % 4 = n % 4 := Nat.mod_mod_of_dvd n (by norm_num)
  simp only [decode_accuracy, h]

/-- C6: every accelerometer (report id 0x01) or linear-acceleration
(report id 0x04) record of at least 10 octets decodes to per-axis values
equal to the little-endian signed 16-bit raw values at offsets 4, 6, 8
divided by 256, with accuracy taken from the low two bits of octet 2; in
particular the claim's 10-octet example decodes to accuracy High,
x = 1, y = 2, z = -1. -/
theorem c6_accel_decode :
    (∀ data : List Nat, 10 ≤ data.length →
      data.getD 0 0 % 256 = 1 ∨ data.getD 0 0 % 256 = 4 →
      ∃ e, parse_sh2_sensor_event data = some e ∧
        e.sensor_id = data.getD 0 0 % 256 ∧
        e.accuracy = decode_accuracy (data.getD 2 0) ∧
        e.accel = some ⟨(le_i16 (data.getD 4 0) (data.getD 5 0) : ℚ) / 256,
                        (le_i16 (data.getD 6 0) (data.getD 7 0) : ℚ) / 256,
                        (le_i16 (data.getD 8 0) (data.getD 9 0) : ℚ) / 256⟩) ∧
    parse_sh2_sensor_event [1, 0, 3, 0, 0, 1, 0, 2, 0, 255] =
      some { emptyEvent with
             sensor_id := 1
             accuracy := .high
             accel := some ⟨1, 2, -1⟩ } := by
  constructor
  · intro data hlen hid
    simp only [parse_sh2_sensor_event]
    rw [if_neg (by omega)]
    rcases hid with hid | hid
    · rw [if_pos hid, if_neg (by omega)]
      exact ⟨_, rfl, hid.symm, (decode_accuracy_mod256 _), rfl⟩
    · rw [if_neg (by omega), if_pos hid, if_neg (by omega)]
      exact ⟨_, rfl, hid.symm, (decode_accuracy_mod256 _), rfl⟩
  · norm_num [parse_sh2_sensor_event, le_i16, decode_accuracy, emptyEvent]

/-- C6 witness: the universal part of the decode theorem applied at the
claim's example payload. -/
theorem c6_witness_example_payload :
    ∃ e, parse_sh2_sensor_event [1, 0, 3, 0, 0, 1, 0, 2, 0, 255] = some e ∧
      e.sensor_id = ([1, 0, 3, 0, 0, 1, 0, 2, 0, 255] : List Nat).getD 0 0 % 256 ∧
      e.accuracy = decode_accuracy
        (([1, 0, 3, 0, 0, 1, 0, 2, 0, 255] : List Nat).getD 2 0) ∧
      e.accel = some ⟨(le_i16 0 1 : ℚ) / 256, (le_i16 0 2 : ℚ) / 256,
                      (le_i16 0 255 : ℚ) / 256⟩ :=
  c6_accel_decode.1 [1, 0, 3, 0, 0, 1, 0, 2, 0, 255] (by decide) (by decide)

/-- C10: every decoded event populates exactly the data field matching its
sensor id (accel for report ids 0x01 and 0x04, gyro for 0x02, game_quat
for 0x08), leaves all the other optional fields empty, and every report id
outside {0x01, 0x02, 0x04, 0x08} makes the decoder return none. -/
theorem c10_event_field_invariants :
    (∀ data e, parse_sh2_sensor_event data = some e →
      e.sensor_id = data.getD 0 0 % 256 ∧
      ((e.sensor_id = 1 ∨ e.sensor_id = 4) ∧ e.accel.isSome ∧
          e.gyro = none ∧ e.game_quat = none ∨
        e.sensor_id = 2 ∧ e.gyro.isSome ∧ e.accel = none ∧
          e.game_quat = none ∨
        e.sensor_id = 8 ∧ e.game_quat.isSome ∧ e.accel = none ∧
          e.gyro = none) ∧
      e.activity_label = none ∧ e.activity_confidence = none ∧
      e.steps_total = none ∧ e.step_event = none ∧
      e.stability_state = none) ∧
    ∀ data : List Nat,
      data.getD 0 0 % 256 ≠ 1 → data.getD 0 0 % 256 ≠ 2 →
      data.getD 0 0 % 256 ≠ 4 → data.getD 0 0 % 256 ≠ 8 →
      parse_sh2_sensor_event data = none := by
  constructor
  · intro data e h
    simp only [parse_sh2_sensor_event] at h
    split_ifs at h with hshort h1 h1len h4 h4len h2 h2len h8 h8len
    all_goals cases h
    · exact ⟨h1.symm, Or.inl ⟨Or.inl rfl, by simp [emptyEvent]⟩,
        by simp [emptyEvent]⟩
    · exact ⟨h4.symm, Or.inl ⟨Or.inr rfl, by simp [emptyEvent]⟩,
        by simp [emptyEvent]⟩
    · exact ⟨h2.symm, Or.inr (Or.inl ⟨rfl, by simp [emptyEvent]⟩),
        by simp [emptyEvent]⟩
    · exact ⟨h8.symm, Or.inr (Or.inr ⟨rfl, by simp [emptyEvent]⟩),
        by simp [emptyEvent]⟩
  · intro data hn1 hn2 hn4 hn8
    simp only [parse_sh2_sensor_event]
    split_ifs <;> first | rfl | omega

/-- C10 witness: the invariants at the worked accelerometer payload, and
the unknown report id 0xFF yielding none. -/
theorem c10_witness_known_and_unknown_ids :
    (∃ p, ({ emptyEvent with
             sensor_id := 1
             accuracy := .high
             accel := some ⟨1, 2, -1⟩ } : Sh2SensorEvent).accel = some p) ∧
    parse_sh2_sensor_event [255, 0, 0, 0, 0, 0, 0, 0, 0, 0] = none := by
  constructor
  · obtain ⟨-, hone, -⟩ := c10_event_field_invariants.1
      [1, 0, 3, 0, 0, 1, 0, 2, 0, 255]
      { emptyEvent with
        sensor_id := 1
        accuracy := .high
        accel := some ⟨1, 2, -1⟩ }
      (by norm_num [parse_sh2_sensor_event, le_i16, decode_accuracy, emptyEvent])
    rcases hone with ⟨-, hsome, -⟩ | ⟨-, -, habs, -⟩ | ⟨-, -, habs, -⟩
    · exact Option.isSome_iff_exists.mp hsome
    · exact absurd habs (by decide)
    · exact absurd habs (by decide)
  · exact c10_event_field_invariants.2 [255, 0, 0, 0, 0, 0, 0, 0, 0, 0]
      (by decide) (by decide) (by decide) (by decide)

/-! Detector lemmas shared by the gesture claims. -/

/-- compute_baseline_if_ready touches only the baseline fields: the
configuration and last_gesture_time are preserved. -/
theorem compute_baseline_preserves (st : DetectorState) :
    (compute_baseline_if_ready st).cfg = st.cfg ∧
    (compute_baseline_if_ready st).last_gesture_time =
      st.last_gesture_time := by
  unfold compute_baseline_if_ready
  cases hb : st.buffer with
  | nil => exact ⟨rfl, rfl⟩
  | cons s0 rest =>
    dsimp only
    split_ifs <;> exact ⟨rfl, rfl⟩

/-- The buffer and baseline stage preserves the configuration and
last_gesture_time. -/
theorem add_sample_pre_preserves (st : DetectorState) (t : ℚ) (a : Vec3)
    (q : Quat) :
    (add_sample_pre st t a q).cfg = st.cfg ∧
    (add_sample_pre st t a q).last_gesture_time = st.last_gesture_time := by
  unfold add_sample_pre
  dsimp only
  split_ifs
  · exact ⟨rfl, rfl⟩
  · exact compute_baseline_preserves _

/-- When the detection step emits, the recorded emission time t_now is at
least min_gesture_interval after the previous last_gesture_time: this is
the source's guard (t_now - last_gesture_time_) < min_gesture_interval. -/
theorem maybe_detect_gesture_guard (cfg : Config) (buf : List GestureSample)
    (a0 : Vec3) (tbe lg : ℚ) (res : GestureResult) (tn : ℚ)
    (h : maybe_detect_gesture cfg buf a0 tbe lg = some (res, tn)) :
    lg + cfg.min_gesture_interval ≤ tn := by
  unfold maybe_detect_gesture at h
  dsimp only at h
  split_ifs at h with h1 h2 h3 h4 h5 <;>
    first
      | exact Option.noConfusion h
      | (injection h with h'
         have htn : (buf.getD (buf.length - 1) dfltSample).t = tn :=
           congrArg Prod.snd h'
         rw [not_lt] at h2
         linarith)

/-- The possible outcomes of one add_sample call, as needed for the
emission-separation invariant: either no emission with last_gesture_time
unchanged, or an emission at a time tn at least min_gesture_interval after
the previous one, with last_gesture_time updated to tn; the configuration
is preserved in both cases. -/
theorem add_sample_cases (st : DetectorState) (t : ℚ) (a : Vec3) (q : Quat) :
    (∃ st2, add_sample st t a q = (st2, none) ∧ st2.cfg = st.cfg ∧
      st2.last_gesture_time = st.last_gesture_time) ∨
    (∃ st2 res tn, add_sample st t a q = (st2, some (res, tn)) ∧
      st2.cfg = st.cfg ∧ st2.last_gesture_time = tn ∧
      st.last_gesture_time + st.cfg.min_gesture_interval ≤ tn) := by
  obtain ⟨hcfg, hlast⟩ := add_sample_pre_preserves st t a q
  unfold add_sample
  dsimp only
  split_ifs with hb
  · rcases hmd : maybe_detect_gesture (add_sample_pre st t a q).cfg
        (add_sample_pre st t a q).buffer (add_sample_pre st t a q).a0_world
        (add_sample_pre st t a q).t_baseline_end
        (add_sample_pre st t a q).last_gesture_time with - | ⟨res, tn⟩
    · exact Or.inl ⟨_, rfl, hcfg, hlast⟩
    · refine Or.inr ⟨_, res, tn, rfl, hcfg, rfl, ?_⟩
      have hg := maybe_detect_gesture_guard _ _ _ _ _ _ _ hmd
      rw [hcfg, hlast] at hg
      exact hg
  · exact Or.inl ⟨_, rfl, hcfg, hlast⟩

/-- The emission-separation invariant for a whole run, strengthened with
the bound on the first emission needed for the induction. -/
theorem runDetector_chain (inputs : List (ℚ × Vec3 × Quat)) :
    ∀ st : DetectorState,
      List.Chain' (fun a b => a.2 + st.cfg.min_gesture_interval ≤ b.2)
        (runDetector st inputs).2 ∧
      ∀ e, ((runDetector st inputs).2).head? = some e →
        st.last_gesture_time + st.cfg.min_gesture_interval ≤ e.2 := by
  induction inputs with
  | nil =>
    intro st
    exact ⟨List.chain'_nil, fun e he => by simp [runDetector] at he⟩
  | cons x rest ih =>
    intro st
    obtain ⟨t, a, q⟩ := x
    rcases add_sample_cases st t a q with
      ⟨st2, heq, hcfg, hlast⟩ | ⟨st2, res, tn, heq, hcfg, hlast, hbound⟩
    · have hrun : (runDetector st ((t, a, q) :: rest)).2 =
          (runDetector st2 rest).2 := by
        simp [runDetector, heq]
      obtain ⟨hch, hhd⟩ := ih st2
      rw [hcfg] at hch hhd
      rw [hrun]
      exact ⟨hch, fun e he => hlast ▸ hhd e he⟩
    · have hrun : (runDetector st ((t, a, q) :: rest)).2 =
          (res, tn) :: (runDetector st2 rest).2 := by
        simp [runDetector, heq]
      obtain ⟨hch, hhd⟩ := ih st2
      rw [hcfg] at hch hhd
      rw [hrun]
      constructor
      · rw [List.chain'_cons']
        refine ⟨fun b hb => ?_, hch⟩
        have := hhd b hb
        rw [hlast] at this
        exact this
      · intro e he
        simp only [List.head?_cons, Option.some.injEq] at he
        rw [← he]
        exact hbound

/-! A concrete detector run used to exercise the gesture claims: identity
orientation, a zero baseline, one strong spike at t = 3, and quiet samples
around it.  The spike stays inside the sliding buffer long enough to be
selected as the peak a second time once the interval guard reopens. -/

/-- A detector configuration with baseline window 2 s, half window 3 s,
dynamic threshold 1, peak threshold 1, and gesture interval 5 s. -/
def demoCfg : Config := ⟨2, 3, 1, 1, 5⟩

/-- The identity orientation quaternion. -/
def demoQuat : Quat := ⟨1, 0, 0, 0⟩

/-- Zero acceleration sample value. -/
def demoZero : Vec3 := ⟨0, 0, 0⟩

/-- The spike acceleration along +X. -/
def demoSpike : Vec3 := ⟨6, 0, 0⟩

/-- The freshly constructed detector (last_gesture_time = -1e9 as in the
source). -/
def demoInit : DetectorState := ⟨demoCfg, [], ⟨0, 0, 0⟩, false, 0, -1000000000⟩

/-- Nine samples at t = 0..8 with the spike at t = 3. -/
def demoInputs : List (ℚ × Vec3 × Quat) :=
  [(0, demoZero, demoQuat), (1, demoZero, demoQuat), (2, demoZero, demoQuat),
   (3, demoSpike, demoQuat), (4, demoZero, demoQuat), (5, demoZero, demoQuat),
   (6, demoZero, demoQuat), (7, demoZero, demoQuat), (8, demoZero, demoQuat)]

/-- The buffer contents just after the spike sample is pushed, used to
exercise the detection step directly. -/
def demoBuf : List GestureSample :=
  [⟨0, demoZero, demoQuat⟩, ⟨1, demoZero, demoQuat⟩, ⟨2, demoZero, demoQuat⟩,
   ⟨3, demoSpike, demoQuat⟩]

/-- The gesture result emitted for the demo spike. -/
def demoRes : GestureResult := ⟨3, 3, ⟨6, 0, 0⟩, ⟨0, 0, 0⟩, 'X', '+', "UP"⟩

/-- C7: the frozen claim asserts strictly increasing t_center values
separated by at least min_gesture_interval.  The interval guard of the
source compares the newest sample time t_now against last_gesture_time,
while t_center is the peak sample's time, so the same peak still inside
the sliding buffer can be emitted twice: the demo run emits two gesture
results whose t_center values are both 3, which is neither a strict
increase nor a separation by min_gesture_interval = 5. -/
theorem c7_counterexample_repeated_t_center :
    ((runDetector demoInit demoInputs).2.map fun e => e.1.t_center) =
      [3, 3] ∧
    ¬ ((3 : ℚ) < 3) ∧
    ¬ ((3 : ℚ) + demoCfg.min_gesture_interval ≤ 3) := by
  refine ⟨?_, by norm_num, by norm_num [demoCfg]⟩
  with_unfolding_all rfl

/-- C7 (amended): what the detector guarantees is separation of the
emission times: along any run, the recorded emission times (the newest
buffered sample time at each emission, stored into last_gesture_time)
are separated by at least min_gesture_interval between successive
emitted gesture results; for the positive intervals in use this makes
the emission times strictly increasing, but t_center itself need not
increase. -/
theorem c7_emission_times_separated (st : DetectorState)
    (inputs : List (ℚ × Vec3 × Quat)) :
    List.Chain' (fun a b => a.2 + st.cfg.min_gesture_interval ≤ b.2)
      (runDetector st inputs).2 :=
  (runDetector_chain inputs st).1

/-- The axis-selection chain picks a component whose absolute value is the
maximum of the three, and reports that component as axis_val. -/
theorem select_axis_spec (dv : Vec3) :
    (select_axis dv).1 = 'X' ∧ (select_axis dv).2 = dv.x ∧
      |dv.x| = max |dv.x| (max |dv.y| |dv.z|) ∨
    (select_axis dv).1 = 'Y' ∧ (select_axis dv).2 = dv.y ∧
      |dv.y| = max |dv.x| (max |dv.y| |dv.z|) ∨
    (select_axis dv).1 = 'Z' ∧ (select_axis dv).2 = dv.z ∧
      |dv.z| = max |dv.x| (max |dv.y| |dv.z|) := by
  unfold select_axis
  dsimp only
  split_ifs with c1 c2
  · exact Or.inl ⟨rfl, rfl, (max_eq_left (max_le c1.1.le c1.2.le)).symm⟩
  · refine Or.inr (Or.inl ⟨rfl, rfl, ?_⟩)
    rw [max_eq_left c2.2.le, max_eq_right c2.1.le]
  · refine Or.inr (Or.inr ⟨rfl, rfl, ?_⟩)
    have c1' := not_and_or.mp c1
    have c2' := not_and_or.mp c2
    simp only [ge_iff_le, not_le] at c1' c2'
    have hbound : |dv.x| ≤ |dv.z| ∧ |dv.y| ≤ |dv.z| := by
      rcases c1' with hx | hx <;> rcases c2' with hy | hy <;>
        exact ⟨by linarith, by linarith⟩
    rw [max_eq_right hbound.2, max_eq_right hbound.1]

/-- The sign assignment is '+' exactly on nonnegative components, and is
always one of '+', '-'. -/
theorem select_sign_spec (v : ℚ) :
    (select_sign v = '+' ↔ 0 ≤ v) ∧
    (select_sign v = '+' ∨ select_sign v = '-') := by
  unfold select_sign
  split_ifs with hv
  · exact ⟨⟨fun _ => hv, fun _ => rfl⟩, Or.inl rfl⟩
  · rw [not_le] at hv
    refine ⟨⟨fun hc => absurd hc (by decide), fun hc => absurd hc (by linarith)⟩,
      Or.inr rfl⟩

/-- C8: every emitted gesture result selects an axis whose |delta-v|
component is the largest of the three; no result is emitted when that
largest magnitude is below 1/2; the sign is '+' exactly when the selected
component is nonnegative; and the label is the (axis, sign) policy
X+ = UP, X- = DOWN, Y+ = FORWARD, Y- = BACKWARD, Z+ = RIGHT, Z- = LEFT. -/
theorem c8_axis_sign_label (cfg : Config) (buf : List GestureSample)
    (a0 : Vec3) (tbe lg : ℚ) (res : GestureResult) (tn : ℚ)
    (h : maybe_detect_gesture cfg buf a0 tbe lg = some (res, tn)) :
    (res.axis = 'X' ∧ |res.delta_v_world.x| =
        max |res.delta_v_world.x|
          (max |res.delta_v_world.y| |res.delta_v_world.z|) ∨
     res.axis = 'Y' ∧ |res.delta_v_world.y| =
        max |res.delta_v_world.x|
          (max |res.delta_v_world.y| |res.delta_v_world.z|) ∨
     res.axis = 'Z' ∧ |res.delta_v_world.z| =
        max |res.delta_v_world.x|
          (max |res.delta_v_world.y| |res.delta_v_world.z|)) ∧
    1 / 2 ≤ max |res.delta_v_world.x|
      (max |res.delta_v_world.y| |res.delta_v_world.z|) ∧
    (res.axis = 'X' → (res.sign = '+' ↔ 0 ≤ res.delta_v_world.x)) ∧
    (res.axis = 'Y' → (res.sign = '+' ↔ 0 ≤ res.delta_v_world.y)) ∧
    (res.axis = 'Z' → (res.sign = '+' ↔ 0 ≤ res.delta_v_world.z)) ∧
    (res.sign = '+' ∨ res.sign = '-') ∧
    res.label = axis_sign_to_label res.axis res.sign ∧
    axis_sign_to_label 'X' '+' = "UP" ∧ axis_sign_to_label 'X' '-' = "DOWN" ∧
    axis_sign_to_label 'Y' '+' = "FORWARD" ∧
    axis_sign_to_label 'Y' '-' = "BACKWARD" ∧
    axis_sign_to_label 'Z' '+' = "RIGHT" ∧
    axis_sign_to_label 'Z' '-' = "LEFT" := by
  unfold maybe_detect_gesture at h
  dsimp only at h
  split_ifs at h with h1 h2 h3 h4 h5
  all_goals try exact Option.noConfusion h
  injection h with h'
  obtain ⟨hres, htn⟩ := Prod.ext_iff.mp h'
  subst hres
  dsimp only
  rw [not_lt] at h5
  rcases select_axis_spec (integrateWindow cfg a0
      ((buf.dropWhile (fun s => s.t <
          (buf.getD (findPeakAux a0 tbe buf 0 (-1, 0)).2 dfltSample).t -
            cfg.half_window_s)).takeWhile
        (fun s => s.t ≤
          (buf.getD (findPeakAux a0 tbe buf 0 (-1, 0)).2 dfltSample).t +
            cfg.half_window_s))) with
    ⟨ha, hv, hm⟩ | ⟨ha, hv, hm⟩ | ⟨ha, hv, hm⟩
  · refine ⟨Or.inl ⟨ha, hm⟩, h5, ?_, ?_, ?_, ?_, rfl,
      by decide, by decide, by decide, by decide, by decide, by decide⟩
    · intro _
      rw [hv]
      exact (select_sign_spec _).1
    · intro hax
      rw [ha] at hax
      exact absurd hax (by decide)
    · intro hax
      rw [ha] at hax
      exact absurd hax (by decide)
    · exact (select_sign_spec _).2
  · refine ⟨Or.inr (Or.inl ⟨ha, hm⟩), h5, ?_, ?_, ?_, ?_, rfl,
      by decide, by decide, by decide, by decide, by decide, by decide⟩
    · intro hax
      rw [ha] at hax
      exact absurd hax (by decide)
    · intro _
      rw [hv]
      exact (select_sign_spec _).1
    · intro hax
      rw [ha] at hax
      exact absurd hax (by decide)
    · exact (select_sign_spec _).2
  · refine ⟨Or.inr (Or.inr ⟨ha, hm⟩), h5, ?_, ?_, ?_, ?_, rfl,
      by decide, by decide, by decide, by decide, by decide, by decide⟩
    · intro hax
      rw [ha] at hax
      exact absurd hax (by decide)
    · intro hax
      rw [ha] at hax
      exact absurd hax (by decide)
    · intro _
      rw [hv]
      exact (select_sign_spec _).1
    · exact (select_sign_spec _).2
/-- C8 witness: the detection step on the demo buffer emits the +X "UP"
result at t_center 3. -/
theorem c8_witness_demo_detection :
    demoRes.axis = 'X' ∧ demoRes.sign = '+' ∧ demoRes.label = "UP" ∧
    (demoRes.axis = 'X' ∧ |demoRes.delta_v_world.x| =
        max |demoRes.delta_v_world.x|
          (max |demoRes.delta_v_world.y| |demoRes.delta_v_world.z|) ∨
     demoRes.axis = 'Y' ∧ |demoRes.delta_v_world.y| =
        max |demoRes.delta_v_world.x|
          (max |demoRes.delta_v_world.y| |demoRes.delta_v_world.z|) ∨
     demoRes.axis = 'Z' ∧ |demoRes.delta_v_world.z| =
        max |demoRes.delta_v_world.x|
          (max |demoRes.delta_v_world.y| |demoRes.delta_v_world.z|)) ∧
    1 / 2 ≤ max |demoRes.delta_v_world.x|
      (max |demoRes.delta_v_world.y| |demoRes.delta_v_world.z|) := by
  have h : maybe_detect_gesture demoCfg demoBuf ⟨0, 0, 0⟩ 2 (-1000000000) =
      some (demoRes, 3) := by
    with_unfolding_all rfl
  obtain ⟨hsel, hmag, -⟩ :=
    c8_axis_sign_label demoCfg demoBuf ⟨0, 0, 0⟩ 2 (-1000000000) demoRes 3 h
  exact ⟨by decide, by decide, by decide, hsel, hmag⟩

end GestRec
